import Mathlib

/-!
Shallow embedding of `Backend/app/services/third_workflow.py`: the five-stage
emergency-task pipeline (context resolver, resource ranker, task synthesizer
with deterministic fallback, task persister, request recorder).

External collaborators (the Appwrite document store and the Gemini model) are
opaque and fallible; each external call is modelled by an oracle argument where
`none` means the call raised an exception and `some v` means it returned `v`.
Python floats are modelled by exact rationals obtained through `parseFloat`,
and Python string truthiness / substring tests are modelled explicitly.
-/

namespace Beminithiya

/-- Decimal digits to a natural number, most significant digit first. -/
def digitsToNat (cs : List Char) : Nat :=
  cs.foldl (fun n c => n * 10 + (c.toNat - 48)) 0

/-- Python `s.strip()`: drop whitespace from both ends. -/
def pyStrip (s : String) : String :=
  ⟨((s.data.dropWhile Char.isWhitespace).reverse.dropWhile Char.isWhitespace).reverse⟩

/-- Python `s.lower()` (the help texts here are ASCII). -/
def pyLower (s : String) : String :=
  ⟨s.data.map Char.toLower⟩

/-- Python falsiness of a string: `not s`, i.e. the string is empty. -/
def strIsEmpty (s : String) : Bool :=
  s.data.isEmpty

/-- Model of Python `float(s)` on decimal strings: surrounding whitespace is
ignored, then an optional sign, an integer part and an optional fractional
part. Exponents, `inf`/`nan` and digit underscores are not modelled; the
result is the exact rational value of the literal, `none` models the
`ValueError` Python raises on a malformed string. -/
def parseFloat (s : String) : Option ℚ :=
  let cs := (pyStrip s).data
  let signAndRest : ℚ × List Char :=
    match cs with
    | '-' :: rest => (-1, rest)
    | '+' :: rest => (1, rest)
    | _ => (1, cs)
  let sign := signAndRest.1
  let body := signAndRest.2
  let intPart := body.takeWhile Char.isDigit
  let rest := body.dropWhile Char.isDigit
  match rest with
  | [] =>
    if intPart.isEmpty then none
    else some (sign * (digitsToNat intPart : ℚ))
  | '.' :: frac =>
    if frac.all Char.isDigit && (!intPart.isEmpty || !frac.isEmpty) then
      some (sign * ((digitsToNat intPart : ℚ) +
        (digitsToNat frac : ℚ) / ((10 : ℚ) ^ frac.length)))
    else none
  | _ => none

/-- Python truthiness of an optional string field (as used in
`if doc.get("latitude") and doc.get("longitude")`): present and non-empty. -/
def truthyStr : Option String → Bool
  | none => false
  | some s => !strIsEmpty s

/-- Python `sub in s` on strings: `sub.data` occurs as a contiguous sublist of
`s.data`. -/
def infixAux (needle : List Char) : List Char → Bool
  | [] => needle.isEmpty
  | c :: cs => needle.isPrefixOf (c :: cs) || infixAux needle cs

/-- Python membership test `sub in s` for strings. -/
def pyIn (sub s : String) : Bool :=
  infixAux sub.data s.data

/-- A resource document returned by
`appwrite_service.list_resources_for_disaster`. Appwrite documents always
carry a `$id` (modelled as `idField`); the remaining fields may be absent. -/
structure ResourceDoc where
  idField : String
  name : Option String
  rtype : Option String
  latitude : Option String
  longitude : Option String
  description : Option String
  contact : Option String
  status : Option String
deriving DecidableEq

/-- The dictionary `{**doc, "distance": distance, "resource_id": doc["$id"]}`
built by `fetch_nearby_resources`. Python stores
`distance = math.sqrt(distSq)` as a float; we keep the exact squared distance
`distSq` and phrase distance-order statements through `Real.sqrt`. -/
structure RankedResource where
  doc : ResourceDoc
  distSq : ℚ
  resource_id : String
deriving DecidableEq

/-- The task dictionary produced by `generate_emergency_task`. The fallback
branch omits the `resource_utilization` key, hence the `Option`. -/
structure Task where
  task_id : String
  description : String
  status : String
  action_done_by : String
  roles : List String
  emergency_type : String
  urgency_level : String
  latitude : ℚ
  longitude : ℚ
  help_needed : String
  user_id : String
  disaster_id : String
  is_fallback : Bool
  first_Task : Bool
  ai_reasoning : String
  resource_utilization : Option String
deriving DecidableEq

/-- The user-request dictionary built by `save_user_request`. -/
structure UserRequestData where
  disaster_id : String
  help : String
  urgency_type : String
  latitude : String
  longitude : String
  emergency_type : String
  task_id : String
  status : String
  feedback : Option String
  assigned_roles : List String
  ai_reasoning : String
  userId : String
deriving DecidableEq

/-- `EmergencyRequestState`: the TypedDict threaded through the pipeline.
`generated_task` and `user_request_data` start as the empty dict `{}`,
modelled by `none`. -/
structure EmergencyRequestState where
  disaster_id : String
  user_id : String
  help : String
  urgency_type : String
  latitude : String
  longitude : String
  emergency_type : String
  nearby_resources : List RankedResource
  generated_task : Option Task
  user_request_data : Option UserRequestData
deriving DecidableEq

/-- A disaster document; `emergency_type` may be absent
(`document.get("emergency_type", "general emergency")`). -/
structure DisasterDoc where
  emergency_type : Option String
deriving DecidableEq

/-- Stage 1, `fetch_disaster_type`: fetch the disaster document and extract
its emergency category. `fetched = none` models the store call raising; the
code then raises `ValueError(f"Disaster data not found: {e}")` — we keep the
constant prefix of that message. -/
def fetch_disaster_type (fetched : Option DisasterDoc)
    (state : EmergencyRequestState) : Except String EmergencyRequestState :=
  match fetched with
  | some document =>
    .ok { state with emergency_type := document.emergency_type.getD "general emergency" }
  | none => .error "Disaster data not found"

/-- Squared Euclidean distance in coordinate-degree space; the Python code
stores `math.sqrt` of this value. -/
def distSq (userLat userLon resLat resLon : ℚ) : ℚ :=
  (userLat - resLat) ^ 2 + (userLon - resLon) ^ 2

/-- The loop body of `fetch_nearby_resources`: documents with a truthy
latitude and longitude are parsed and ranked; a float-parse failure raises,
which (because the `except` covers the whole stage) discards everything —
modelled by returning `none`. Documents without truthy coordinates are
skipped without being parsed. -/
def collectRanked (userLat userLon : ℚ) :
    List ResourceDoc → Option (List RankedResource)
  | [] => some []
  | doc :: docs =>
    if truthyStr doc.latitude && truthyStr doc.longitude then
      match parseFloat (doc.latitude.getD ""), parseFloat (doc.longitude.getD "") with
      | some resLat, some resLon =>
        (collectRanked userLat userLon docs).map
          (fun rest =>
            { doc := doc
              distSq := distSq userLat userLon resLat resLon
              resource_id := doc.idField } :: rest)
      | _, _ => none
    else collectRanked userLat userLon docs

/-- Sort key of `nearby_resources.sort(key=lambda x: x.get("distance", inf))`:
comparing stored distances `sqrt d` is the same as comparing the squared
distances `d`, since `sqrt` is monotone on nonnegative values. -/
def distLe (a b : RankedResource) : Bool :=
  decide (a.distSq ≤ b.distSq)

/-- Stage 2, `fetch_nearby_resources`: list the disaster's resources, keep
those with truthy coordinates, attach distances, sort ascending (Python's
stable sort, modelled by `List.mergeSort`) and truncate to 5. Any exception
anywhere in the stage (listing raised, a user or resource coordinate failed
to parse) yields the empty resource list instead. -/
def fetch_nearby_resources (listed : Option (List ResourceDoc))
    (state : EmergencyRequestState) : EmergencyRequestState :=
  match listed, parseFloat state.latitude, parseFloat state.longitude with
  | some docs, some userLat, some userLon =>
    match collectRanked userLat userLon docs with
    | some ranked =>
      { state with nearby_resources := (ranked.mergeSort distLe).take 5 }
    | none => { state with nearby_resources := [] }
  | _, _, _ => { state with nearby_resources := [] }

/-- Inappropriate-content keywords of the fallback classifier. -/
def inappropriate_keywords : List String :=
  ["sexy", "kiss", "love", "haha", "lol", "prank", "joke", "fake"]

/-- Food/water keywords of the fallback classifier. -/
def food_keywords : List String :=
  ["food", "hungry", "hunger", "starving", "eat", "meal", "water", "thirsty", "drink"]

/-- Medical/injury keywords of the fallback classifier. -/
def medical_keywords : List String :=
  ["medical", "injury", "hurt", "bleeding", "unconscious", "rescue", "trapped",
    "fire", "pain", "sick", "ill"]

/-- Mass-casualty / group keywords of the fallback classifier. -/
def mass_keywords : List String :=
  ["many people", "multiple people", "crowd", "group", "families", "everyone"]

/-- Python `any(keyword in help_lower for keyword in keywords)`. -/
def hasKeyword (keywords : List String) (helpLower : String) : Bool :=
  keywords.any (fun k => pyIn k helpLower)

/-- The description and role list computed by the fallback branch of
`generate_emergency_task` (the body of its `except` block, up to building the
task dict). It depends only on the help text, the normalized urgency, the
coordinate strings and the ranked resource list. -/
def fallback_description_roles (help urgency latitude longitude : String)
    (nearby : List RankedResource) : String × List String :=
  let helpLower := pyLower help
  if hasKeyword inappropriate_keywords helpLower then
    ("Verify request details and assess if legitimate emergency assistance is needed.",
      ["vol"])
  else
    let needs_food := hasKeyword food_keywords helpLower
    let needs_medical := hasKeyword medical_keywords helpLower
    let mass_casualty := hasKeyword mass_keywords helpLower
    let pair : String × List String :=
      if mass_casualty && (needs_medical || urgency == "high") then
        ("Coordinate emergency response for multiple people needing " ++ help ++
          " at location (" ++ latitude ++ ", " ++ longitude ++ ").", ["vol", "fr"])
      else if needs_medical || urgency == "high" then
        ("Provide immediate medical assistance to person needing " ++ help ++
          " at location (" ++ latitude ++ ", " ++ longitude ++ ").", ["fr"])
      else if needs_food then
        ("Deliver food and water supplies to person at location (" ++ latitude ++
          ", " ++ longitude ++ ").", ["vol"])
      else
        ("Assist person needing " ++ help ++ " at location (" ++ latitude ++ ", " ++
          longitude ++ ").", ["vol"])
    match nearby with
    | [] => pair
    | closest :: _ =>
      (pair.1 ++ " Coordinate with " ++ closest.doc.name.getD "nearby resource" ++
        " for assistance.", pair.2)

/-- The structured fields extracted from a parsed Gemini JSON answer. The
oracle value `none` for the whole record models any exception up to and
including `json.loads` (network failure, non-JSON output, code-fence
stripping leaving garbage); a `none` field models a missing key. -/
structure AiData where
  description : Option String
  roles : Option String
  reasoning : Option String
  resource_utilization : Option String
deriving DecidableEq

/-- Stage 3, `generate_emergency_task`. The primary path turns a parsed model
answer into a task (expanding `"both"`, defaulting unknown roles to `"vol"`,
rejecting an empty description); any exception inside the `try` — model
failure, empty description, or an unparseable coordinate at `float(latitude)`
— lands in the fallback classifier. The fallback's own
`float(latitude)`/`float(longitude)` calls sit outside any handler, so a
parse failure there escapes the stage, modelled by `Except.error`. -/
def generate_emergency_task (ai : Option AiData) (taskId : String)
    (state : EmergencyRequestState) : Except String EmergencyRequestState :=
  let urgency := if state.urgency_type == "moderate" then "medium" else state.urgency_type
  let primary : Option Task :=
    match ai with
    | none => none
    | some data =>
      let aiDescription := pyStrip (data.description.getD "")
      let aiRole := data.roles.getD "vol"
      let validRoles :=
        if aiRole == "both" then ["vol", "fr"]
        else if aiRole == "vol" || aiRole == "fr" then [aiRole]
        else ["vol"]
      if strIsEmpty aiDescription then none
      else
        match parseFloat state.latitude, parseFloat state.longitude with
        | some lat, some lon =>
          some
            { task_id := taskId
              description := aiDescription
              status := "pending"
              action_done_by := ""
              roles := validRoles
              emergency_type := state.emergency_type
              urgency_level := urgency
              latitude := lat
              longitude := lon
              help_needed := state.help
              user_id := state.user_id
              disaster_id := state.disaster_id
              is_fallback := false
              first_Task := false
              ai_reasoning := data.reasoning.getD "AI-determined role assignment"
              resource_utilization := some (data.resource_utilization.getD "none") }
        | _, _ => none
  match primary with
  | some task => .ok { state with generated_task := some task }
  | none =>
    let dr := fallback_description_roles state.help urgency state.latitude
      state.longitude state.nearby_resources
    match parseFloat state.latitude, parseFloat state.longitude with
    | some lat, some lon =>
      let task : Task :=
        { task_id := taskId
          description := dr.1
          status := "pending"
          action_done_by := ""
          roles := dr.2
          emergency_type := state.emergency_type
          urgency_level := urgency
          latitude := lat
          longitude := lon
          help_needed := state.help
          user_id := state.user_id
          disaster_id := state.disaster_id
          is_fallback := true
          first_Task := false
          ai_reasoning := "Intelligent fallback assignment based on context analysis"
          resource_utilization := none }
      .ok { state with generated_task := some task }
    | _, _ => .error "could not convert string to float"

/-- A task document listed by `list_tasks_by_user_and_disaster`: its Appwrite
`$id` (as `idField`), an optional `task_id` payload field, and the
`first_Task` flag (`task.get("first_Task", False)`). -/
structure StoredTask where
  idField : Option String
  task_id : Option String
  first_Task : Option Bool
deriving DecidableEq

/-- A store write attempted by the persistence stages. -/
inductive DbOp where
  | deleteTask : String → DbOp
  | saveTask : Option Task → DbOp
deriving DecidableEq

/-- Python `task.get("$id") or task.get("task_id")`: the `$id` field when
truthy, otherwise the `task_id` field. -/
def taskEffectiveId (t : StoredTask) : Option String :=
  if truthyStr t.idField then t.idField else t.task_id

/-- The deletions issued by `save_task_to_db`: one per listed task whose
effective id is truthy and whose `first_Task` flag is false or absent. When
listing raised (`listed = none`), the `except` skips the loop entirely. -/
def deleteOpsFor (listed : Option (List StoredTask)) : List DbOp :=
  match listed with
  | none => []
  | some tasks =>
    tasks.filterMap (fun t =>
      match taskEffectiveId t with
      | some i =>
        if !strIsEmpty i && !(t.first_Task.getD false) then some (DbOp.deleteTask i)
        else none
      | none => none)

/-- Stage 4, `save_task_to_db`: delete the prior non-first tasks of the
(user, disaster) pair, then save the new task. `deleteOk`/`saveOk` model
whether each store call succeeds; every failure is swallowed, so they cannot
affect the result. Returned alongside the unchanged state is the sequence of
attempted store operations, deletions first, then the save. -/
def save_task_to_db (listed : Option (List StoredTask))
    (deleteOk : String → Bool) (saveOk : Bool)
    (state : EmergencyRequestState) : EmergencyRequestState × List DbOp :=
  (state, deleteOpsFor listed ++ [DbOp.saveTask state.generated_task])

/-- Stage 5, `save_user_request`: builds the user-request record. The dict
construction reads `state["generated_task"]["task_id"]` outside any `try`, so
a missing generated task would raise a `KeyError` past the stage; in the
pipeline the synthesizer always populates it first. Store failures (deleting
the old record, saving the new one) are swallowed. -/
def save_user_request (deleteOk saveOk : Bool)
    (state : EmergencyRequestState) : Except String EmergencyRequestState :=
  match state.generated_task with
  | none => .error "KeyError: task_id"
  | some task =>
    let userRequest : UserRequestData :=
      { disaster_id := state.disaster_id
        help := state.help
        urgency_type := state.urgency_type
        latitude := state.latitude
        longitude := state.longitude
        emergency_type := state.emergency_type
        task_id := task.task_id
        status := "submitted"
        feedback := none
        assigned_roles := task.roles
        ai_reasoning := task.ai_reasoning
        userId := state.user_id }
    .ok { state with user_request_data := some userRequest }

/-- One oracle value per external interaction of a single pipeline run. -/
structure Oracles where
  disasterDoc : Option DisasterDoc
  resourceDocs : Option (List ResourceDoc)
  aiOutcome : Option AiData
  taskId : String
  existingTasks : Option (List StoredTask)
  deleteTaskOk : String → Bool
  saveTaskOk : Bool
  deleteRequestOk : Bool
  saveRequestOk : Bool

/-- The initial `EmergencyRequestState` built by `process_emergency_request`. -/
def initial_state (disaster_id user_id help urgency_type latitude longitude : String) :
    EmergencyRequestState :=
  { disaster_id := disaster_id
    user_id := user_id
    help := help
    urgency_type := urgency_type
    latitude := latitude
    longitude := longitude
    emergency_type := ""
    nearby_resources := []
    generated_task := none
    user_request_data := none }

/-- `process_emergency_request`: the compiled LangGraph pipeline, a strict
sequential composition of the five stages. An `Except.error` models an
exception propagating to the caller. The attempted task-store operations are
returned alongside the final state. -/
def process_emergency_request (o : Oracles)
    (disaster_id user_id help urgency_type latitude longitude : String) :
    Except String (EmergencyRequestState × List DbOp) := do
  let s0 := initial_state disaster_id user_id help urgency_type latitude longitude
  let s1 ← fetch_disaster_type o.disasterDoc s0
  let s2 := fetch_nearby_resources o.resourceDocs s1
  let s3 ← generate_emergency_task o.aiOutcome o.taskId s2
  let p := save_task_to_db o.existingTasks o.deleteTaskOk o.saveTaskOk s3
  let s5 ← save_user_request o.deleteRequestOk o.saveRequestOk p.1
  return (s5, p.2)

/-- Modelled from the spec: the HTTP entry point feeding this pipeline is not
under `src/`; per the specification, requester latitude/longitude are
"numeric strings, parsed to floating point; invalid coordinates are a caller
error handled before this stage", so every state the caller lets reach the
pipeline carries coordinate strings that parse as floats. -/
def coords_are_valid (state : EmergencyRequestState) : Prop :=
  (parseFloat state.latitude).isSome ∧ (parseFloat state.longitude).isSome

/-! Concrete inputs used by witnesses and counterexamples. -/

/-- The example request of the specification: food and water at (12.0, 77.0),
urgency `moderate`, no nearby resources. -/
def stateFoodWater : EmergencyRequestState :=
  { disaster_id := "d1"
    user_id := "u1"
    help := "Need food and water"
    urgency_type := "moderate"
    latitude := "12.0"
    longitude := "77.0"
    emergency_type := "flood"
    nearby_resources := []
    generated_task := none
    user_request_data := none }

/-- A resource document with valid coordinates at (13.0, 77.0). -/
def docShelterA : ResourceDoc :=
  { idField := "r1", name := some "Shelter A", rtype := some "shelter",
    latitude := some "13.0", longitude := some "77.0",
    description := some "city shelter", contact := some "111", status := some "open" }

/-- A nearer resource document with valid coordinates at (12.5, 77.0). -/
def docDepotB : ResourceDoc :=
  { idField := "r2", name := some "Depot B", rtype := some "supply",
    latitude := some "12.5", longitude := some "77.0",
    description := none, contact := none, status := none }

/-- A resource document whose coordinate fields are both present and truthy
but whose latitude is not parseable as a float. -/
def docMalformed : ResourceDoc :=
  { idField := "r3", name := none, rtype := none, latitude := some "abc",
    longitude := some "5.0", description := none, contact := none, status := none }

/-- The ranked entry built for `docDepotB` from `stateFoodWater`: squared
distance (12 - 12.5)^2 + (77 - 77)^2 = 1/4. -/
def rankedDepotB : RankedResource :=
  { doc := docDepotB, distSq := 1 / 4, resource_id := "r2" }

/-- A fallback input whose help text holds an inappropriate keyword together
with food, medical, fire and mass-casualty signals, at high urgency, with a
nearby resource. -/
def stateKissFire : EmergencyRequestState :=
  { disaster_id := "d2"
    user_id := "u2"
    help := "Send kiss, fire and many people bleeding, need water"
    urgency_type := "high"
    latitude := "1.0"
    longitude := "2.0"
    emergency_type := "earthquake"
    nearby_resources := [rankedDepotB]
    generated_task := none
    user_request_data := none }

/-- First of two fallback inputs agreeing on help text, urgency and resource
list but not on coordinates. -/
def stateAtLatOne : EmergencyRequestState :=
  { disaster_id := "d3"
    user_id := "u3"
    help := "Need blankets"
    urgency_type := "low"
    latitude := "1.0"
    longitude := "3.0"
    emergency_type := "storm"
    nearby_resources := []
    generated_task := none
    user_request_data := none }

/-- Second of the two: only the latitude differs. -/
def stateAtLatTwo : EmergencyRequestState :=
  { stateAtLatOne with latitude := "2.0" }

/-- A stored task carrying `first_Task = true`: a seed task the persister
must not delete. -/
def storedSeedTask : StoredTask :=
  { idField := some "seed-1", task_id := none, first_Task := some true }

/-- A stored task with the `first_Task` flag absent: a prior pipeline task. -/
def storedOldTask : StoredTask :=
  { idField := some "old-1", task_id := some "tid-9", first_Task := none }

/-- A full oracle assignment for whole-pipeline runs. -/
def oraclesBase : Oracles :=
  { disasterDoc := some { emergency_type := some "flood" }
    resourceDocs := some []
    aiOutcome := none
    taskId := "task-1"
    existingTasks := some []
    deleteTaskOk := fun _ => true
    saveTaskOk := true
    deleteRequestOk := true
    saveRequestOk := true }

/-- The generated task's description of a stage-3 outcome, when there is one. -/
def taskDescOf : Except String EmergencyRequestState → Option String
  | .ok s => s.generated_task.map Task.description
  | .error _ => none

/-- A well-formed model answer selecting "both" roles. -/
def aiAnswerBoth : AiData :=
  { description := some "Coordinate rescue and supplies for the group."
    roles := some "both"
    reasoning := some "large group"
    resource_utilization := none }

/-! Helper lemmas about the stages. -/

/-- With the model unavailable and parseable coordinates, stage 3 returns the
fallback task built from `fallback_description_roles`. -/
theorem gen_none_eq (taskId : String) (s : EmergencyRequestState) (lat lon : ℚ)
    (hlat : parseFloat s.latitude = some lat)
    (hlon : parseFloat s.longitude = some lon) :
    generate_emergency_task none taskId s = .ok { s with generated_task := some {
        task_id := taskId
        description := (fallback_description_roles s.help
          (if s.urgency_type == "moderate" then "medium" else s.urgency_type)
          s.latitude s.longitude s.nearby_resources).1
        status := "pending"
        action_done_by := ""
        roles := (fallback_description_roles s.help
          (if s.urgency_type == "moderate" then "medium" else s.urgency_type)
          s.latitude s.longitude s.nearby_resources).2
        emergency_type := s.emergency_type
        urgency_level := if s.urgency_type == "moderate" then "medium" else s.urgency_type
        latitude := lat
        longitude := lon
        help_needed := s.help
        user_id := s.user_id
        disaster_id := s.disaster_id
        is_fallback := true
        first_Task := false
        ai_reasoning := "Intelligent fallback assignment based on context analysis"
        resource_utilization := none } } := by
  unfold generate_emergency_task
  simp [hlat, hlon]

/-- With an unparseable coordinate string, stage 3 always raises: the primary
path fails at its own `float` conversion (or earlier), and the fallback's
`float` conversion then raises past the stage. -/
theorem gen_coord_error (ai : Option AiData) (taskId : String)
    (s : EmergencyRequestState)
    (hfail : parseFloat s.latitude = none ∨ parseFloat s.longitude = none) :
    generate_emergency_task ai taskId s =
      .error "could not convert string to float" := by
  unfold generate_emergency_task
  cases ai with
  | none =>
    rcases hfail with h | h <;>
      rcases h1 : parseFloat s.latitude with _ | lat <;>
      rcases h2 : parseFloat s.longitude with _ | lon <;>
      simp_all
  | some data =>
    cases hdesc : strIsEmpty (pyStrip (data.description.getD "")) <;>
      rcases hfail with h | h <;>
      rcases h1 : parseFloat s.latitude with _ | lat <;>
      rcases h2 : parseFloat s.longitude with _ | lon <;>
      simp_all

/-- A parsed model answer whose stripped description is empty raises inside
the `try`, so the stage behaves exactly as with no model answer at all. -/
theorem gen_some_empty (data : AiData) (taskId : String) (s : EmergencyRequestState)
    (hdesc : strIsEmpty (pyStrip (data.description.getD "")) = true) :
    generate_emergency_task (some data) taskId s =
      generate_emergency_task none taskId s := by
  unfold generate_emergency_task
  simp [hdesc]

/-- A parsed model answer with a non-empty stripped description and parseable
coordinates yields the primary-path task. -/
theorem gen_some_eq (data : AiData) (taskId : String) (s : EmergencyRequestState)
    (lat lon : ℚ) (hlat : parseFloat s.latitude = some lat)
    (hlon : parseFloat s.longitude = some lon)
    (hdesc : strIsEmpty (pyStrip (data.description.getD "")) = false) :
    generate_emergency_task (some data) taskId s = .ok { s with generated_task := some {
        task_id := taskId
        description := pyStrip (data.description.getD "")
        status := "pending"
        action_done_by := ""
        roles :=
          if data.roles.getD "vol" == "both" then ["vol", "fr"]
          else if data.roles.getD "vol" == "vol" || data.roles.getD "vol" == "fr" then
            [data.roles.getD "vol"]
          else ["vol"]
        emergency_type := s.emergency_type
        urgency_level := if s.urgency_type == "moderate" then "medium" else s.urgency_type
        latitude := lat
        longitude := lon
        help_needed := s.help
        user_id := s.user_id
        disaster_id := s.disaster_id
        is_fallback := false
        first_Task := false
        ai_reasoning := data.reasoning.getD "AI-determined role assignment"
        resource_utilization := some (data.resource_utilization.getD "none") } } := by
  unfold generate_emergency_task
  simp [hdesc, hlat, hlon]

/-- The fallback role set is always `[vol]`, `[fr]` or `[vol, fr]`. -/
theorem fallback_roles_cases (help urgency latitude longitude : String)
    (nearby : List RankedResource) :
    (fallback_description_roles help urgency latitude longitude nearby).2 = ["vol"] ∨
    (fallback_description_roles help urgency latitude longitude nearby).2 = ["fr"] ∨
    (fallback_description_roles help urgency latitude longitude nearby).2 = ["vol", "fr"] := by
  unfold fallback_description_roles
  cases nearby <;> dsimp only <;> split_ifs <;> simp

/-- An inappropriate keyword short-circuits the fallback classifier, skipping
the keyword branches and the resource-coordination suffix. -/
theorem fallback_inappropriate (help urgency latitude longitude : String)
    (nearby : List RankedResource)
    (h : hasKeyword inappropriate_keywords (pyLower help) = true) :
    fallback_description_roles help urgency latitude longitude nearby =
      ("Verify request details and assess if legitimate emergency assistance is needed.",
        ["vol"]) := by
  unfold fallback_description_roles
  simp [h]

/-- Priority order of the non-inappropriate fallback branches. -/
theorem fallback_priority (help urgency latitude longitude : String)
    (nearby : List RankedResource)
    (hin : hasKeyword inappropriate_keywords (pyLower help) = false) :
    ((hasKeyword mass_keywords (pyLower help) &&
        (hasKeyword medical_keywords (pyLower help) || urgency == "high")) = true →
      (fallback_description_roles help urgency latitude longitude nearby).2 = ["vol", "fr"]) ∧
    ((hasKeyword mass_keywords (pyLower help) &&
        (hasKeyword medical_keywords (pyLower help) || urgency == "high")) = false →
      (hasKeyword medical_keywords (pyLower help) || urgency == "high") = true →
      (fallback_description_roles help urgency latitude longitude nearby).2 = ["fr"]) ∧
    ((hasKeyword mass_keywords (pyLower help) &&
        (hasKeyword medical_keywords (pyLower help) || urgency == "high")) = false →
      (hasKeyword medical_keywords (pyLower help) || urgency == "high") = false →
      hasKeyword food_keywords (pyLower help) = true →
      (fallback_description_roles help urgency latitude longitude nearby).2 = ["vol"] ∧
        (nearby = [] →
          (fallback_description_roles help urgency latitude longitude nearby).1 =
            "Deliver food and water supplies to person at location (" ++ latitude ++
              ", " ++ longitude ++ ").")) ∧
    ((hasKeyword mass_keywords (pyLower help) &&
        (hasKeyword medical_keywords (pyLower help) || urgency == "high")) = false →
      (hasKeyword medical_keywords (pyLower help) || urgency == "high") = false →
      hasKeyword food_keywords (pyLower help) = false →
      (fallback_description_roles help urgency latitude longitude nearby).2 = ["vol"]) := by
  refine ⟨fun h1 => ?_, fun h1 h2 => ?_, fun h1 h2 h3 => ⟨?_, fun hnil => ?_⟩,
    fun h1 h2 h3 => ?_⟩
  · unfold fallback_description_roles
    cases nearby <;> simp [hin, h1]
  · simp only [h2, Bool.and_true] at h1
    unfold fallback_description_roles
    cases nearby <;> simp [hin, h1, h2]
  · unfold fallback_description_roles
    cases nearby <;> simp [hin, h1, h2, h3]
  · subst hnil
    unfold fallback_description_roles
    simp [hin, h1, h2, h3]
  · unfold fallback_description_roles
    cases nearby <;> simp [hin, h1, h2, h3]

/-- A truthy optional string is present. -/
theorem truthy_ne_none (o : Option String) (h : truthyStr o = true) : o ≠ none := by
  cases o <;> simp_all [truthyStr]

/-- Every entry `collectRanked` keeps comes from a document with truthy
coordinate fields. -/
theorem collectRanked_mem (userLat userLon : ℚ) (docs : List ResourceDoc)
    (rs : List RankedResource) (h : collectRanked userLat userLon docs = some rs) :
    ∀ r ∈ rs, truthyStr r.doc.latitude = true ∧ truthyStr r.doc.longitude = true := by
  induction docs generalizing rs with
  | nil =>
    simp only [collectRanked, Option.some.injEq] at h
    subst h
    simp
  | cons d ds ih =>
    unfold collectRanked at h
    split at h
    · rename_i hc
      split at h
      · rcases hrest : collectRanked userLat userLon ds with _ | rest
        · rw [hrest] at h
          simp at h
        · rw [hrest] at h
          simp at h
          subst h
          intro r hr
          rcases List.mem_cons.mp hr with hhead | htail
          · subst hhead
            simpa using And.intro (Bool.and_elim_left hc) (Bool.and_elim_right hc)
          · exact ih rest hrest r htail
      · simp at h
    · exact ih rs h

/-- The sort key comparison is transitive. -/
theorem distLe_trans (a b c : RankedResource) (hab : distLe a b) (hbc : distLe b c) :
    distLe a c := by
  simp only [distLe, decide_eq_true_eq] at *
  exact le_trans hab hbc

/-- The sort key comparison is total. -/
theorem distLe_total (a b : RankedResource) : distLe a b || distLe b a := by
  simp only [distLe]
  rcases le_total a.distSq b.distSq with h | h <;> simp [h]

/-! Claim theorems. -/

/-- C1: the Task Synthesizer never raises past its own boundary — for every
state reaching it (the caller validates coordinate strings, captured by
`coords_are_valid`), `generate_emergency_task` returns a state containing a
generated task for every model outcome: any exception on the primary
language-model path lands in the fallback classifier, which itself completes
with some task. -/
theorem generate_emergency_task_total (ai : Option AiData) (taskId : String)
    (s : EmergencyRequestState) (h : coords_are_valid s) :
    ∃ t : Task, generate_emergency_task ai taskId s =
      .ok { s with generated_task := some t } := by
  obtain ⟨hlat, hlon⟩ := h
  obtain ⟨lat, hlat⟩ := Option.isSome_iff_exists.mp hlat
  obtain ⟨lon, hlon⟩ := Option.isSome_iff_exists.mp hlon
  cases ai with
  | none => exact ⟨_, gen_none_eq taskId s lat lon hlat hlon⟩
  | some data =>
    cases hdesc : strIsEmpty (pyStrip (data.description.getD "")) with
    | false => exact ⟨_, gen_some_eq data taskId s lat lon hlat hlon hdesc⟩
    | true =>
      rw [gen_some_empty data taskId s hdesc]
      exact ⟨_, gen_none_eq taskId s lat lon hlat hlon⟩

/-- C1 witness: the specification's example state has caller-valid
coordinates, and with the model unavailable generation completes. -/
theorem generate_emergency_task_total_witness :
    coords_are_valid stateFoodWater ∧
      ∃ t : Task, generate_emergency_task none "task-1" stateFoodWater =
        .ok { stateFoodWater with generated_task := some t } :=
  ⟨⟨by decide, by decide⟩,
    generate_emergency_task_total none "task-1" stateFoodWater ⟨by decide, by decide⟩⟩

/-- C2: whenever stage 3 returns a state, the generated task's roles are a
non-empty subset of vol and fr — one of [vol], [fr] or [vol, fr]. On the
primary path "both" expands to [vol, fr], "vol" or "fr" stays a singleton
and anything else defaults to [vol]; every fallback branch assigns one of
the same three lists. -/
theorem generated_task_roles_subset (ai : Option AiData) (taskId : String)
    (s r : EmergencyRequestState)
    (h : generate_emergency_task ai taskId s = .ok r) :
    ∃ t : Task, r.generated_task = some t ∧
      (t.roles = ["vol"] ∨ t.roles = ["fr"] ∨ t.roles = ["vol", "fr"]) := by
  rcases hlat : parseFloat s.latitude with _ | lat
  · rw [gen_coord_error ai taskId s (Or.inl hlat)] at h
    exact absurd h (by simp)
  rcases hlon : parseFloat s.longitude with _ | lon
  · rw [gen_coord_error ai taskId s (Or.inr hlon)] at h
    exact absurd h (by simp)
  cases ai with
  | none =>
    rw [gen_none_eq taskId s lat lon hlat hlon] at h
    obtain rfl := Except.ok.inj h
    exact ⟨_, rfl, fallback_roles_cases _ _ _ _ _⟩
  | some data =>
    cases hdesc : strIsEmpty (pyStrip (data.description.getD "")) with
    | true =>
      rw [gen_some_empty data taskId s hdesc,
        gen_none_eq taskId s lat lon hlat hlon] at h
      obtain rfl := Except.ok.inj h
      exact ⟨_, rfl, fallback_roles_cases _ _ _ _ _⟩
    | false =>
      rw [gen_some_eq data taskId s lat lon hlat hlon hdesc] at h
      obtain rfl := Except.ok.inj h
      refine ⟨_, rfl, ?_⟩
      cases hboth : (data.roles.getD "vol" == "both") with
      | true => simp [hboth]
      | false =>
        cases hvol : (data.roles.getD "vol" == "vol") with
        | true =>
          have hv := eq_of_beq hvol
          simp [hboth, hvol, hv]
        | false =>
          cases hfr : (data.roles.getD "vol" == "fr") with
          | true =>
            have hf := eq_of_beq hfr
            simp [hboth, hvol, hfr, hf]
          | false => simp [hboth, hvol, hfr]

/-- C2 witness: the primary path with a model answer choosing "both" yields
[vol, fr] at the example state. -/
theorem generated_task_roles_subset_witness :
    ∃ r, generate_emergency_task (some aiAnswerBoth) "task-1" stateFoodWater = .ok r ∧
      ∃ t : Task, r.generated_task = some t ∧
        (t.roles = ["vol"] ∨ t.roles = ["fr"] ∨ t.roles = ["vol", "fr"]) :=
  ⟨_, rfl, generated_task_roles_subset (some aiAnswerBoth) "task-1" stateFoodWater _ rfl⟩

/-- C3: the fallback classifier follows the priority order on the lowercased
help text, with urgency "moderate" normalized to "medium": mass-casualty
together with (medical or urgency high) gives [vol, fr]; otherwise medical or
urgency high gives [fr]; otherwise a food/water keyword gives [vol] with the
delivery description naming the coordinates; otherwise [vol] with the generic
description — and every fallback task carries is_fallback = true. -/
theorem fallback_priority_order (taskId : String) (s r : EmergencyRequestState)
    (hgen : generate_emergency_task none taskId s = .ok r) :
    ∃ t : Task, r.generated_task = some t ∧ t.is_fallback = true ∧
      (hasKeyword inappropriate_keywords (pyLower s.help) = false →
        (let urgency := if s.urgency_type == "moderate" then "medium" else s.urgency_type
         let mass := hasKeyword mass_keywords (pyLower s.help)
         let med := hasKeyword medical_keywords (pyLower s.help)
         let food := hasKeyword food_keywords (pyLower s.help)
         ((mass && (med || urgency == "high")) = true → t.roles = ["vol", "fr"]) ∧
         ((mass && (med || urgency == "high")) = false →
           (med || urgency == "high") = true → t.roles = ["fr"]) ∧
         ((mass && (med || urgency == "high")) = false →
           (med || urgency == "high") = false → food = true →
           t.roles = ["vol"] ∧ (s.nearby_resources = [] →
             t.description = "Deliver food and water supplies to person at location (" ++
               s.latitude ++ ", " ++ s.longitude ++ ").")) ∧
         ((mass && (med || urgency == "high")) = false →
           (med || urgency == "high") = false → food = false →
           t.roles = ["vol"]))) := by
  rcases hlat : parseFloat s.latitude with _ | lat
  · rw [gen_coord_error none taskId s (Or.inl hlat)] at hgen
    exact absurd hgen (by simp)
  rcases hlon : parseFloat s.longitude with _ | lon
  · rw [gen_coord_error none taskId s (Or.inr hlon)] at hgen
    exact absurd hgen (by simp)
  rw [gen_none_eq taskId s lat lon hlat hlon] at hgen
  obtain rfl := Except.ok.inj hgen
  refine ⟨_, rfl, rfl, fun hin => ?_⟩
  obtain ⟨p1, p2, p3, p4⟩ := fallback_priority s.help
    (if s.urgency_type == "moderate" then "medium" else s.urgency_type)
    s.latitude s.longitude s.nearby_resources hin
  exact ⟨p1, p2, p3, p4⟩

/-- C3 witness: the spec example — help "Need food and water", urgency
"moderate", no resources, model unavailable — yields roles [vol], the
food/water delivery description naming the coordinates, and a task marked
is_fallback = true. -/
theorem fallback_priority_order_witness :
    ∃ r, generate_emergency_task none "task-1" stateFoodWater = .ok r ∧
      ∃ t : Task, r.generated_task = some t ∧ t.is_fallback = true ∧
        t.roles = ["vol"] ∧
        t.description =
          "Deliver food and water supplies to person at location (12.0, 77.0)." := by
  obtain ⟨t, ht, hfb, hcond⟩ := fallback_priority_order "task-1" stateFoodWater _ rfl
  obtain ⟨p1, p2, p3, p4⟩ := hcond (by decide)
  obtain ⟨hroles, hdesc⟩ := p3 (by decide) (by decide) (by decide)
  exact ⟨_, rfl, t, ht, hfb, hroles, by rw [hdesc (by decide)]; decide⟩

/-- C7: in the fallback classifier, an inappropriate keyword in the help text
forces roles [vol] and the verification description, regardless of urgency
and of any food, medical or mass-casualty signals also present in the text. -/
theorem inappropriate_overrides_all (taskId : String) (s r : EmergencyRequestState)
    (hgen : generate_emergency_task none taskId s = .ok r)
    (hbad : hasKeyword inappropriate_keywords (pyLower s.help) = true) :
    ∃ t : Task, r.generated_task = some t ∧ t.roles = ["vol"] ∧
      t.description =
        "Verify request details and assess if legitimate emergency assistance is needed." := by
  rcases hlat : parseFloat s.latitude with _ | lat
  · rw [gen_coord_error none taskId s (Or.inl hlat)] at hgen
    exact absurd hgen (by simp)
  rcases hlon : parseFloat s.longitude with _ | lon
  · rw [gen_coord_error none taskId s (Or.inr hlon)] at hgen
    exact absurd hgen (by simp)
  rw [gen_none_eq taskId s lat lon hlat hlon] at hgen
  obtain rfl := Except.ok.inj hgen
  refine ⟨_, rfl, ?_, ?_⟩ <;>
    simp [fallback_inappropriate s.help _ s.latitude s.longitude s.nearby_resources hbad]

/-- C7 witness: help text holding "kiss" alongside water, fire, bleeding and
mass-casualty signals at high urgency, with a nearby resource, still produces
a vol verification task. -/
theorem inappropriate_overrides_all_witness :
    ∃ r, generate_emergency_task none "task-1" stateKissFire = .ok r ∧
      ∃ t : Task, r.generated_task = some t ∧ t.roles = ["vol"] ∧
        t.description =
          "Verify request details and assess if legitimate emergency assistance is needed." :=
  ⟨_, rfl, inappropriate_overrides_all "task-1" stateKissFire _ rfl (by decide)⟩

/-- C4: for any listed resource set, the Resource Ranker returns a list of at
most 5 entries, sorted by non-decreasing Euclidean distance to the requester
in coordinate-degree space, in which every resource missing either its
latitude or its longitude has been excluded. -/
theorem ranked_resources_sorted (listed : Option (List ResourceDoc))
    (s : EmergencyRequestState) :
    ((fetch_nearby_resources listed s).nearby_resources).length ≤ 5 ∧
    List.Pairwise (fun a b : RankedResource =>
        Real.sqrt ((a.distSq : ℝ)) ≤ Real.sqrt ((b.distSq : ℝ)))
      ((fetch_nearby_resources listed s).nearby_resources) ∧
    ∀ r ∈ (fetch_nearby_resources listed s).nearby_resources,
      r.doc.latitude ≠ none ∧ r.doc.longitude ≠ none := by
  unfold fetch_nearby_resources
  rcases listed with _ | docs
  · simp
  rcases h1 : parseFloat s.latitude with _ | ula
  · simp [h1]
  rcases h2 : parseFloat s.longitude with _ | ulo
  · simp [h1, h2]
  rcases h3 : collectRanked ula ulo docs with _ | ranked
  · simp [h1, h2, h3]
  simp only [h1, h2, h3]
  refine ⟨List.length_take_le 5 _, ?_, ?_⟩
  · have hsorted : (ranked.mergeSort distLe).Pairwise (fun a b => distLe a b) :=
      List.sorted_mergeSort (fun a b c => distLe_trans a b c) distLe_total ranked
    have htake := hsorted.sublist (List.take_sublist 5 _)
    refine htake.imp ?_
    intro a b hab
    have hq : a.distSq ≤ b.distSq := by
      simpa [distLe] using hab
    exact Real.sqrt_le_sqrt (by exact_mod_cast hq)
  · intro r hr
    have hmem : r ∈ ranked := List.mem_mergeSort.mp (List.mem_of_mem_take hr)
    obtain ⟨ha, hb⟩ := collectRanked_mem ula ulo docs ranked h3 r hmem
    exact ⟨truthy_ne_none _ ha, truthy_ne_none _ hb⟩

unseal Rat.add Rat.mul Rat.sub Rat.inv List.mergeSort List.merge in
/-- C4 witness: for the two valid documents at (13.0, 77.0) and (12.5, 77.0)
from the example requester, the nearer depot is in the ranked output and its
coordinate fields are present. -/
theorem ranked_resources_sorted_witness :
    rankedDepotB.doc.latitude ≠ none ∧ rankedDepotB.doc.longitude ≠ none :=
  (ranked_resources_sorted (some [docShelterA, docDepotB]) stateFoodWater).2.2
    rankedDepotB (by decide)

unseal Rat.add Rat.mul Rat.sub Rat.inv List.mergeSort List.merge in
/-- C10: one resource whose coordinate fields are both present but whose
latitude is not parseable as a float makes `fetch_nearby_resources` return
the empty list, discarding even the resources with valid coordinates —
whereas the valid resource alone would have been ranked. -/
theorem malformed_resource_discards_all :
    fetch_nearby_resources (some [docShelterA, docMalformed]) stateFoodWater =
      { stateFoodWater with nearby_resources := [] } ∧
    (fetch_nearby_resources (some [docShelterA]) stateFoodWater).nearby_resources.length
      = 1 := by
  constructor <;> decide

/-- C5: the Task Persister issues a delete for every previously listed task
of the (user, disaster) pair whose first_Task flag is false or absent (all
store documents carry a truthy id), never for a task whose flag is true, and
all deletes precede the single save of the new task; every store failure —
listing, individual deletes, the final save — is swallowed, so the stage
returns the state unchanged instead of raising. -/
theorem save_task_persister_spec (tasks : List StoredTask)
    (deleteOk : String → Bool) (saveOk : Bool) (s : EmergencyRequestState)
    (hid : ∀ t ∈ tasks, truthyStr (taskEffectiveId t) = true) :
    (∀ listed deleteOk' saveOk',
      (save_task_to_db listed deleteOk' saveOk' s).1 = s) ∧
    (∀ t ∈ tasks, t.first_Task.getD false = false →
      ∀ i, taskEffectiveId t = some i →
        DbOp.deleteTask i ∈ (save_task_to_db (some tasks) deleteOk saveOk s).2) ∧
    (∀ i, DbOp.deleteTask i ∈ (save_task_to_db (some tasks) deleteOk saveOk s).2 →
      ∃ t ∈ tasks, taskEffectiveId t = some i ∧ t.first_Task.getD false = false) ∧
    (∃ dels, (save_task_to_db (some tasks) deleteOk saveOk s).2 =
        dels ++ [DbOp.saveTask s.generated_task] ∧
      ∀ op ∈ dels, ∃ i, op = DbOp.deleteTask i) := by
  refine ⟨fun _ _ _ => rfl, ?_, ?_, ?_⟩
  · intro t ht hfT i heff
    have htr : truthyStr (some i) = true := heff ▸ hid t ht
    refine List.mem_append_left _ (List.mem_filterMap.mpr ⟨t, ht, ?_⟩)
    rw [heff]
    simp only [truthyStr] at htr
    simp [htr, hfT]
  · intro i hmem
    rcases List.mem_append.mp hmem with hdel | hsave
    · obtain ⟨t, ht, heq⟩ := List.mem_filterMap.mp hdel
      refine ⟨t, ht, ?_⟩
      rcases hte : taskEffectiveId t with _ | j
      · rw [hte] at heq
        simp at heq
      · rw [hte] at heq
        by_cases hcond : (!strIsEmpty j && !t.first_Task.getD false) = true
        · simp [hcond] at heq
          obtain rfl : j = i := heq
          exact ⟨rfl, by simpa using Bool.and_elim_right hcond⟩
        · simp [hcond] at heq
    · simp at hsave
  · refine ⟨deleteOpsFor (some tasks), rfl, ?_⟩
    intro op hop
    obtain ⟨t, ht, heq⟩ := List.mem_filterMap.mp hop
    rcases hte : taskEffectiveId t with _ | j
    · rw [hte] at heq
      simp at heq
    · rw [hte] at heq
      by_cases hcond : (!strIsEmpty j && !t.first_Task.getD false) = true
      · simp [hcond] at heq
        exact ⟨j, heq.symm⟩
      · simp [hcond] at heq

/-- C5 witness: with a seed task (first_Task = true) and an old pipeline task
listed, and both the delete and save store calls failing, the persister still
returns the state unchanged and had issued the delete of the old task. -/
theorem save_task_persister_spec_witness :
    ((save_task_to_db (some [storedSeedTask, storedOldTask]) (fun _ => false) false
        stateFoodWater).1 = stateFoodWater) ∧
    DbOp.deleteTask "old-1" ∈
      (save_task_to_db (some [storedSeedTask, storedOldTask]) (fun _ => false) false
        stateFoodWater).2 := by
  obtain ⟨h1, h2, h3, h4⟩ := save_task_persister_spec [storedSeedTask, storedOldTask]
    (fun _ => false) false stateFoodWater (by decide)
  exact ⟨h1 (some [storedSeedTask, storedOldTask]) (fun _ => false) false,
    h2 storedOldTask (by simp) (by decide) "old-1" (by decide)⟩

/-- C6: when the disaster document cannot be fetched or does not exist, the
pipeline aborts with the descriptive error instead of continuing with the
remaining stages. -/
theorem disaster_context_fatal (o : Oracles)
    (disaster_id user_id help urgency_type latitude longitude : String)
    (h : o.disasterDoc = none) :
    process_emergency_request o disaster_id user_id help urgency_type latitude
      longitude = .error "Disaster data not found" := by
  simp only [process_emergency_request, fetch_disaster_type, h]
  rfl

/-- C6 witness: a run whose disaster fetch raises aborts with the error. -/
theorem disaster_context_fatal_witness :
    process_emergency_request { oraclesBase with disasterDoc := none }
      "d1" "u1" "Need food and water" "moderate" "12.0" "77.0"
      = .error "Disaster data not found" :=
  disaster_context_fatal { oraclesBase with disasterDoc := none } "d1" "u1"
    "Need food and water" "moderate" "12.0" "77.0" rfl

/-- A listing failure leaves the empty ranked list. -/
theorem fetch_listed_none (s : EmergencyRequestState) :
    fetch_nearby_resources none s = { s with nearby_resources := [] } := rfl

/-- Listing zero resources also leaves the empty ranked list. -/
theorem fetch_some_nil_eq (s : EmergencyRequestState) :
    fetch_nearby_resources (some []) s = { s with nearby_resources := [] } := by
  unfold fetch_nearby_resources
  rcases h1 : parseFloat s.latitude with _ | ula <;>
    rcases h2 : parseFloat s.longitude with _ | ulo <;>
    simp [h1, h2, collectRanked]

/-- C8: the Resource Ranker never fails fatally — a listing failure yields
the same state with an empty resource list; a full pipeline run whose
resource listing raises is identical to one that listed no resources, so
control continues to the Task Synthesizer instead of aborting; and every
ranker outcome is either the degraded empty list or a ranked list. -/
theorem resource_ranker_never_fatal (o : Oracles)
    (disaster_id user_id help urgency_type latitude longitude : String)
    (listed : Option (List ResourceDoc)) (s : EmergencyRequestState) :
    (fetch_nearby_resources none s = { s with nearby_resources := [] }) ∧
    (process_emergency_request { o with resourceDocs := none } disaster_id user_id
        help urgency_type latitude longitude =
      process_emergency_request { o with resourceDocs := some [] } disaster_id
        user_id help urgency_type latitude longitude) ∧
    (fetch_nearby_resources listed s = { s with nearby_resources := [] } ∨
      ∃ docs userLat userLon ranked, listed = some docs ∧
        parseFloat s.latitude = some userLat ∧ parseFloat s.longitude = some userLon ∧
        collectRanked userLat userLon docs = some ranked ∧
        fetch_nearby_resources listed s =
          { s with nearby_resources := (ranked.mergeSort distLe).take 5 }) := by
  refine ⟨fetch_listed_none s, ?_, ?_⟩
  · unfold process_emergency_request
    simp only [fetch_listed_none, fetch_some_nil_eq]
  · rcases listed with _ | docs
    · exact Or.inl (fetch_listed_none s)
    rcases h1 : parseFloat s.latitude with _ | ula
    · refine Or.inl ?_
      unfold fetch_nearby_resources
      simp [h1]
    rcases h2 : parseFloat s.longitude with _ | ulo
    · refine Or.inl ?_
      unfold fetch_nearby_resources
      simp [h1, h2]
    rcases h3 : collectRanked ula ulo docs with _ | ranked
    · refine Or.inl ?_
      unfold fetch_nearby_resources
      simp [h1, h2, h3]
    · refine Or.inr ⟨docs, ula, ulo, ranked, rfl, rfl, rfl, h3, ?_⟩
      unfold fetch_nearby_resources
      simp [h1, h2, h3]

/-- C9 counterexample: two fallback runs agreeing on help text, urgency label
and ranked resource list but differing in latitude produce different
descriptions, refuting the claim as stated. -/
theorem fallback_description_depends_on_coords :
    (stateAtLatOne.help = stateAtLatTwo.help ∧
      stateAtLatOne.urgency_type = stateAtLatTwo.urgency_type ∧
      stateAtLatOne.nearby_resources = stateAtLatTwo.nearby_resources) ∧
    taskDescOf (generate_emergency_task none "task-1" stateAtLatOne) ≠
      taskDescOf (generate_emergency_task none "task-1" stateAtLatTwo) := by
  exact ⟨⟨rfl, rfl, rfl⟩, by decide⟩

/-- C9 (amended): the fallback classifier is deterministic once the
coordinate strings are also fixed: two runs with identical help text, urgency
label, coordinates and ranked resource list produce the same role set and the
same description, and both tasks carry is_fallback = true. The amendment adds
the coordinates to the fixed inputs, which the counterexample forces: the
composed fallback descriptions name the coordinates. -/
theorem fallback_deterministic (taskId₁ taskId₂ : String)
    (s₁ s₂ r₁ r₂ : EmergencyRequestState)
    (hhelp : s₁.help = s₂.help) (hurg : s₁.urgency_type = s₂.urgency_type)
    (hlat : s₁.latitude = s₂.latitude) (hlon : s₁.longitude = s₂.longitude)
    (hres : s₁.nearby_resources = s₂.nearby_resources)
    (h₁ : generate_emergency_task none taskId₁ s₁ = .ok r₁)
    (h₂ : generate_emergency_task none taskId₂ s₂ = .ok r₂) :
    ∃ t₁ t₂ : Task, r₁.generated_task = some t₁ ∧ r₂.generated_task = some t₂ ∧
      t₁.roles = t₂.roles ∧ t₁.description = t₂.description ∧
      t₁.is_fallback = true ∧ t₂.is_fallback = true := by
  rcases hplat : parseFloat s₁.latitude with _ | lat
  · rw [gen_coord_error none taskId₁ s₁ (Or.inl hplat)] at h₁
    exact absurd h₁ (by simp)
  rcases hplon : parseFloat s₁.longitude with _ | lon
  · rw [gen_coord_error none taskId₁ s₁ (Or.inr hplon)] at h₁
    exact absurd h₁ (by simp)
  rw [gen_none_eq taskId₁ s₁ lat lon hplat hplon] at h₁
  obtain rfl := Except.ok.inj h₁
  rw [gen_none_eq taskId₂ s₂ lat lon (hlat ▸ hplat) (hlon ▸ hplon)] at h₂
  obtain rfl := Except.ok.inj h₂
  refine ⟨_, _, rfl, rfl, ?_, ?_, rfl, rfl⟩ <;>
    simp only [hhelp, hurg, hlat, hlon, hres]

/-- C9 witness: two concrete runs of the fallback path on the same request
with different fresh task ids agree on roles and description and are both
marked as fallback tasks. -/
theorem fallback_deterministic_witness :
    ∃ r₁ r₂, generate_emergency_task none "task-1" stateAtLatOne = .ok r₁ ∧
      generate_emergency_task none "task-2" stateAtLatOne = .ok r₂ ∧
      ∃ t₁ t₂ : Task, r₁.generated_task = some t₁ ∧ r₂.generated_task = some t₂ ∧
        t₁.roles = t₂.roles ∧ t₁.description = t₂.description ∧
        t₁.is_fallback = true ∧ t₂.is_fallback = true :=
  ⟨_, _, rfl, rfl, fallback_deterministic "task-1" "task-2" stateAtLatOne
    stateAtLatOne _ _ rfl rfl rfl rfl rfl rfl rfl⟩

end Beminithiya
